import Mathlib

/-!
Shallow embedding of the Sistema-Financiero bookkeeping application
(src/004.py).  The SQLite tables become Lean lists of records, each SQL
query becomes a pure Lean function over those lists, and each GUI handler
that mutates the database becomes a state-passing function returning
`Except Err DBState`.  Monetary amounts (SQLite REAL written from Python
floats such as 100.0) are modelled as rationals; timestamps as a calendar
day number plus seconds within the day, so that the SQL date() truncation
is the projection on the day.
-/

/-! ## SHA-256 (embedding of hashlib.sha256 used by hash_password, line 124) -/

/-- Modulus of 32-bit words. -/
def w32 : Nat := 4294967296

/-- Right rotation of a 32-bit word. -/
def rotr (n x : Nat) : Nat := ((x >>> n) ||| (x <<< (32 - n))) % w32

/-- Bitwise complement of a 32-bit word. -/
def bnot32 (x : Nat) : Nat := x ^^^ (w32 - 1)

/-- SHA-256 choice function. -/
def ch32 (e f g : Nat) : Nat := (e &&& f) ^^^ (bnot32 e &&& g)

/-- SHA-256 majority function. -/
def maj32 (a b c : Nat) : Nat := (a &&& b) ^^^ (a &&& c) ^^^ (b &&& c)

/-- SHA-256 big sigma 0. -/
def bigSigma0 (a : Nat) : Nat := rotr 2 a ^^^ rotr 13 a ^^^ rotr 22 a

/-- SHA-256 big sigma 1. -/
def bigSigma1 (e : Nat) : Nat := rotr 6 e ^^^ rotr 11 e ^^^ rotr 25 e

/-- SHA-256 small sigma 0. -/
def smallSigma0 (x : Nat) : Nat := rotr 7 x ^^^ rotr 18 x ^^^ (x >>> 3)

/-- SHA-256 small sigma 1. -/
def smallSigma1 (x : Nat) : Nat := rotr 17 x ^^^ rotr 19 x ^^^ (x >>> 10)

/-- The 64 SHA-256 round constants. -/
def kConst : List Nat :=
  [1116352408, 1899447441, 3049323471, 3921009573, 961987163, 1508970993,
   2453635748, 2870763221, 3624381080, 310598401, 607225278, 1426881987,
   1925078388, 2162078206, 2614888103, 3248222580, 3835390401, 4022224774,
   264347078, 604807628, 770255983, 1249150122, 1555081692, 1996064986,
   2554220882, 2821834349, 2952996808, 3210313671, 3336571891, 3584528711,
   113926993, 338241895, 666307205, 773529912, 1294757372, 1396182291,
   1695183700, 1986661051, 2177026350, 2456956037, 2730485921, 2820302411,
   3259730800, 3345764771, 3516065817, 3600352804, 4094571909, 275423344,
   430227734, 506948616, 659060556, 883997877, 958139571, 1322822218,
   1537002063, 1747873779, 1955562222, 2024104815, 2227730452, 2361852424,
   2428436474, 2756734187, 3204031479, 3329325298]

/-- The SHA-256 initial hash value. -/
def hInit : List Nat :=
  [1779033703, 3144134277, 1013904242, 2773480762, 1359893119, 2600822924,
   528734635, 1541459225]

/-- Big-endian byte decomposition of a number into k bytes. -/
def beBytes (k n : Nat) : List Nat :=
  (List.range k).map (fun i => (n >>> (8 * (k - 1 - i))) % 256)

/-- Group a byte list into big-endian 32-bit words. -/
def bytesToWords : List Nat → List Nat
  | a :: b :: c :: d :: rest =>
      (a * 16777216 + b * 65536 + c * 256 + d) :: bytesToWords rest
  | _ => []

/-- SHA-256 padding: append 0x80, zeros and the 64-bit big-endian bit length,
to a multiple of 64 bytes. -/
def padMessage (msg : List Nat) : List Nat :=
  msg ++ 0x80 :: List.replicate ((119 - msg.length % 64) % 64) 0 ++ beBytes 8 (8 * msg.length)

/-- One message-schedule extension step: append word t from words t-2, t-7,
t-15, t-16. -/
def scheduleStep (ws : List Nat) : List Nat :=
  let n := ws.length
  let g := fun i => ws.getD (n - i) 0
  ws ++ [(smallSigma1 (g 2) + g 7 + smallSigma0 (g 15) + g 16) % w32]

/-- The 64-word message schedule of one block. -/
def schedule (w16 : List Nat) : List Nat :=
  (List.range 48).foldl (fun ws _ => scheduleStep ws) w16

/-- The eight 32-bit working variables of the compression function. -/
structure Digest8 where
  a : Nat
  b : Nat
  c : Nat
  d : Nat
  e : Nat
  f : Nat
  g : Nat
  h : Nat
  deriving Repr, DecidableEq

/-- One SHA-256 round, consuming a (schedule word, round constant) pair. -/
def roundStep (st : Digest8) (wk : Nat × Nat) : Digest8 :=
  let t1 := (st.h + bigSigma1 st.e + ch32 st.e st.f st.g + wk.2 + wk.1) % w32
  let t2 := (bigSigma0 st.a + maj32 st.a st.b st.c) % w32
  ⟨(t1 + t2) % w32, st.a, st.b, st.c, (st.d + t1) % w32, st.e, st.f, st.g⟩

/-- View an 8-element word list as a Digest8. -/
def listToDigest (l : List Nat) : Digest8 :=
  ⟨l.getD 0 0, l.getD 1 0, l.getD 2 0, l.getD 3 0,
   l.getD 4 0, l.getD 5 0, l.getD 6 0, l.getD 7 0⟩

/-- Compress one 64-byte block into the running hash. -/
def compressBlock (hs : Digest8) (block : List Nat) : Digest8 :=
  let ws := schedule (bytesToWords block)
  let st := (ws.zip kConst).foldl roundStep hs
  ⟨(hs.a + st.a) % w32, (hs.b + st.b) % w32, (hs.c + st.c) % w32, (hs.d + st.d) % w32,
   (hs.e + st.e) % w32, (hs.f + st.f) % w32, (hs.g + st.g) % w32, (hs.h + st.h) % w32⟩

/-- SHA-256 over a list of bytes, as eight 32-bit words. -/
def sha256Words (msg : List Nat) : Digest8 :=
  let padded := padMessage msg
  let blocks := (List.range (padded.length / 64)).map (fun i => (padded.drop (64 * i)).take 64)
  blocks.foldl compressBlock (listToDigest hInit)

/-- Lower-case hex digit. -/
def hexChar (n : Nat) : Char := if n < 10 then Char.ofNat (48 + n) else Char.ofNat (87 + n)

/-- A 32-bit word as 8 hex characters. -/
def toHex8 (wd : Nat) : List Char :=
  (List.range 8).map (fun i => hexChar ((wd >>> (4 * (7 - i))) % 16))

/-- The hex digest of a Digest8, 64 lower-case hex characters. -/
def digestHex (dg : Digest8) : String :=
  ⟨([dg.a, dg.b, dg.c, dg.d, dg.e, dg.f, dg.g, dg.h]).flatMap toHex8⟩

/-- UTF-8 encoding of one character. -/
def charUtf8 (c : Char) : List Nat :=
  let n := c.toNat
  if n < 128 then [n]
  else if n < 2048 then [192 + n / 64, 128 + n % 64]
  else if n < 65536 then [224 + n / 4096, 128 + (n / 64) % 64, 128 + n % 64]
  else [240 + n / 262144, 128 + (n / 4096) % 64, 128 + (n / 64) % 64, 128 + n % 64]

/-- UTF-8 bytes of a string (embedding of Python str.encode with utf-8). -/
def utf8Bytes (s : String) : List Nat := s.data.flatMap charUtf8

/-- Embedding of hash_password (src/004.py lines 124-125):
sha256 of the UTF-8 bytes of the password, hex-encoded. -/
def hash_password (password : String) : String := digestHex (sha256Words (utf8Bytes password))

/-- Embedding of check_password (src/004.py lines 127-128). -/
def check_password (password hashed : String) : Bool := hash_password password == hashed

/-- Sanity: the SHA-256 implementation reproduces the standard test vector for
the empty message. -/
theorem sha256_testvector_empty :
    digestHex (sha256Words []) =
      "e3b0c44298fc1c149afbf4c8996fb92427ae41e4649b934ca495991b7852b855" := by decide

/-- Sanity: the SHA-256 implementation reproduces the standard test vector for
the ASCII message abc. -/
theorem sha256_testvector_abc :
    hash_password "abc" =
      "ba7816bf8f01cfea414140de5dae2223b00361a396177a9cb410ff61f20015ad" := by decide

/-! ## Data model (the five SQLite tables created by init_db, src/004.py lines 57-117) -/

/-- Role of a user: CHECK(tipo IN (master, estandar)). -/
inductive RolUsuario where
  | master
  | estandar
  deriving Repr, DecidableEq

/-- Direction of a movement: CHECK(tipo IN (entrada, salida)). -/
inductive TipoTrans where
  | entrada
  | salida
  deriving Repr, DecidableEq

/-- Currency: CHECK(moneda IN (Bs, USD)). -/
inductive Moneda where
  | bs
  | usd
  deriving Repr, DecidableEq

/-- Payment channel: CHECK(medio IN (fisico, digital)). -/
inductive Medio where
  | fisico
  | digital
  deriving Repr, DecidableEq

/-- Bank tag: CHECK(banco IN (ninguno, ven, mercantil, banesco)).
add_transaction always supplies one of the four values, so NULL is not
modelled. -/
inductive Banco where
  | ninguno
  | ven
  | mercantil
  | banesco
  deriving Repr, DecidableEq

/-- Obligation status: CHECK(estado IN (pendiente, pagada, vencida)). -/
inductive EstadoCuenta where
  | pendiente
  | pagada
  | vencida
  deriving Repr, DecidableEq

/-- A timestamp: calendar day number plus seconds within the day.  The SQL
date() truncation used by obtener_balance is the projection on dia. -/
structure Fecha where
  dia : Nat
  segundos : Nat
  deriving Repr, DecidableEq

/-- A row of the usuarios table. -/
structure Usuario where
  id : Nat
  nombre : String
  apellido : String
  cedula : String
  username : String
  password : String
  tipo : RolUsuario
  deriving Repr, DecidableEq

/-- A row of the transacciones table. -/
structure Transaccion where
  id : Nat
  usuario : String
  tipo : TipoTrans
  monto : Rat
  moneda : Moneda
  medio : Medio
  banco : Banco
  descripcion : String
  eliminado : Bool
  fecha : Fecha
  deriving Repr, DecidableEq

/-- A row of cuentas_por_cobrar or cuentas_por_pagar (structurally identical
tables; contraparte is the cliente respectively proveedor column). -/
structure Cuenta where
  id : Nat
  contraparte : String
  monto : Rat
  moneda : Moneda
  fechaVencimiento : Nat
  estado : EstadoCuenta
  descripcion : String
  fechaRegistro : Fecha
  deriving Repr, DecidableEq

/-- A row of the historial_cambios audit table, as written by log_change
(src/004.py lines 143-147). -/
structure Historial where
  usuario : String
  accion : String
  tabla : String
  registroId : Nat
  descripcion : Option String
  deriving Repr, DecidableEq

/-- The persisted database state: the five tables plus the AUTOINCREMENT
counters of the tables whose new row ids the claims mention. -/
structure DBState where
  usuarios : List Usuario
  transacciones : List Transaccion
  cxc : List Cuenta
  cxp : List Cuenta
  historial : List Historial
  nextUserId : Nat
  nextTransId : Nat
  nextCxcId : Nat
  nextCxpId : Nat
  deriving Repr, DecidableEq

/-- The error taxonomy of the specification. -/
inductive Err where
  | validationError
  | duplicateKey
  | invalidCredentials
  | permissionDenied
  | notFound
  deriving Repr, DecidableEq

/-! ## Balance queries (each definition embeds one SQL aggregation of the source) -/

/-- SUM(monto) over the rows satisfying a WHERE predicate; SQL SUM of no rows
is NULL and every call site replaces NULL by 0 (the `or 0` idiom). -/
def sumWhere (p : Transaccion → Bool) (rows : List Transaccion) : Rat :=
  (rows.map (fun r => if p r then r.monto else 0)).sum

/-- SUM(CASE WHEN tipo=entrada THEN monto ELSE -monto END) over the rows
satisfying a WHERE predicate, with NULL replaced by 0. -/
def signedWhere (p : Transaccion → Bool) (rows : List Transaccion) : Rat :=
  (rows.map (fun r =>
    if p r then (match r.tipo with | .entrada => r.monto | .salida => -r.monto) else 0)).sum

/-- Balance by currency shown by load_transactions (src/004.py lines 601-615):
entradas minus salidas over non-deleted rows of that currency. -/
def balance_moneda (rows : List Transaccion) (m : Moneda) : Rat :=
  sumWhere (fun r => decide (r.tipo = .entrada) && !r.eliminado && decide (r.moneda = m)) rows
    - sumWhere (fun r => decide (r.tipo = .salida) && !r.eliminado && decide (r.moneda = m)) rows

/-- Embedding of obtener_balance (src/004.py lines 958-964): signed sum over
non-deleted rows of the currency whose calendar date is at least desde. -/
def obtener_balance (rows : List Transaccion) (m : Moneda) (desde : Nat) : Rat :=
  signedWhere (fun r => !r.eliminado && decide (r.moneda = m) && decide (desde ≤ r.fecha.dia)) rows

/-- Per-bank per-currency balance of generate_pdf_report (src/004.py lines
193-205): entradas minus salidas over non-deleted rows filtered by currency
and bank tag. -/
def balance_banco (rows : List Transaccion) (m : Moneda) (b : Banco) : Rat :=
  sumWhere (fun r => decide (r.tipo = .entrada) && !r.eliminado
      && decide (r.moneda = m) && decide (r.banco = b)) rows
    - sumWhere (fun r => decide (r.tipo = .salida) && !r.eliminado
      && decide (r.moneda = m) && decide (r.banco = b)) rows

/-- The per-currency total of the bank section of generate_pdf_report
(src/004.py lines 186-209): the bank balances summed over the three named
banks ven, mercantil, banesco only. -/
def total_moneda_bancos (rows : List Transaccion) (m : Moneda) : Rat :=
  ([Banco.ven, Banco.mercantil, Banco.banesco].map (balance_banco rows m)).sum

/-- Signed total per currency of generate_pdf_report (src/004.py lines 215 and
221). -/
def total_signed_moneda (rows : List Transaccion) (m : Moneda) : Rat :=
  signedWhere (fun r => !r.eliminado && decide (r.moneda = m)) rows

/-- SUM(monto) over obligations with estado=pagada in a currency
(src/004.py lines 216-217 and 222-223). -/
def sum_pagadas (m : Moneda) (cuentas : List Cuenta) : Rat :=
  (cuentas.map (fun c =>
    if decide (c.estado = .pagada) && decide (c.moneda = m) then c.monto else 0)).sum

/-- The Balance Total General per currency of generate_pdf_report (src/004.py
lines 215-224): ledger signed total plus paid receivables minus paid
payables. -/
def balance_general_moneda (s : DBState) (m : Moneda) : Rat :=
  total_signed_moneda s.transacciones m + sum_pagadas m s.cxc - sum_pagadas m s.cxp

/-- The active listing of load_transactions (src/004.py line 594): rows with
eliminado = 0 (the ORDER BY only affects display order). -/
def listActive (rows : List Transaccion) : List Transaccion :=
  rows.filter (fun r => !r.eliminado)

/-! ## Operations (embeddings of the mutating GUI handlers) -/

/-- Embedding of Python str.strip(): drop whitespace from both ends. -/
def strip (s : String) : String :=
  ⟨((s.data.dropWhile Char.isWhitespace).reverse.dropWhile Char.isWhitespace).reverse⟩

deriving instance DecidableEq for Except

/-- Embedding of get_user (src/004.py lines 149-151): the first usuarios row
with the given username. -/
def get_user (s : DBState) (username : String) : Option Usuario :=
  s.usuarios.find? (fun u => decide (u.username = username))

/-- Embedding of register_user (src/004.py lines 484-511).  The handler strips
the four text fields, rejects blank fields and passwords shorter than 4,
rejects an existing username via get_user, and then inserts; an insert that
violates the UNIQUE(cedula) constraint raises and is caught, leaving the
table unchanged (modelled as the duplicateKey error).  On any error the state
is unchanged (the caller keeps s). -/
def register_user (s : DBState) (nombre apellido cedula username password : String)
    (tipo : RolUsuario) : Except Err DBState :=
  let nombreT := strip nombre
  let apellidoT := strip apellido
  let cedulaT := strip cedula
  let usernameT := strip username
  if nombreT = "" ∨ apellidoT = "" ∨ cedulaT = "" ∨ usernameT = "" ∨ password = "" then
    .error .validationError
  else if password.length < 4 then
    .error .validationError
  else if (get_user s usernameT).isSome then
    .error .duplicateKey
  else if s.usuarios.any (fun u => decide (u.cedula = cedulaT)) then
    .error .duplicateKey
  else
    .ok { s with
      usuarios := s.usuarios ++
        [⟨s.nextUserId, nombreT, apellidoT, cedulaT, usernameT, hash_password password, tipo⟩],
      nextUserId := s.nextUserId + 1 }

/-- Embedding of login (src/004.py lines 358-370): strip the username, reject
blank username or password with a missing-fields warning, then return the
user iff it exists and check_password succeeds, and the
usuario-o-contrasena-incorrectos error otherwise.  The store is never
modified. -/
def login (s : DBState) (usernameRaw password : String) : Except Err Usuario :=
  if strip usernameRaw = "" ∨ password = "" then .error .validationError
  else
    match get_user s (strip usernameRaw) with
    | none => .error .invalidCredentials
    | some u => if check_password password u.password then .ok u else .error .invalidCredentials

/-- Embedding of on_medio_change (src/004.py lines 562-570): when the channel
is fisico the bank selector is cleared to the empty label, which
add_transaction maps back to the key ninguno; otherwise the selection
stands. -/
def banco_efectivo (medio : Medio) (seleccion : Banco) : Banco :=
  match medio with
  | .fisico => .ninguno
  | .digital => seleccion

/-- Embedding of add_transaction (src/004.py lines 617-645): reject amounts
that are not greater than zero, then insert the row (eliminado defaults to 0,
the creation date is the selected calendar day) and append an insert audit
entry carrying the new AUTOINCREMENT row id. -/
def add_transaction (s : DBState) (u : Usuario) (tipo : TipoTrans) (monto : Rat)
    (moneda : Moneda) (medio : Medio) (bancoSel : Banco) (descripcion : String)
    (fechaDia : Nat) : Except Err DBState :=
  if monto ≤ 0 then .error .validationError
  else
    .ok { s with
      transacciones := s.transacciones ++
        [⟨s.nextTransId, u.username, tipo, monto, moneda, medio,
          banco_efectivo medio bancoSel, strip descripcion, false, ⟨fechaDia, 0⟩⟩],
      historial := s.historial ++
        [⟨u.username, "insert", "transacciones", s.nextTransId, some (strip descripcion)⟩],
      nextTransId := s.nextTransId + 1 }

/-- The row update of UPDATE transacciones SET eliminado = 1 WHERE id = tid. -/
def marca_eliminada (tid : Nat) (r : Transaccion) : Transaccion :=
  if r.id = tid then { r with eliminado := true } else r

/-- The row update of UPDATE transacciones SET eliminado = 0 WHERE id = tid. -/
def marca_restaurada (tid : Nat) (r : Transaccion) : Transaccion :=
  if r.id = tid then { r with eliminado := false } else r

/-- Embedding of delete_transaction (src/004.py lines 647-659): a non-master
actor is refused with the solo-usuarios-MASTER error; otherwise the UPDATE
sets eliminado = 1 on every row with the id (a no-op when the id is absent:
SQLite UPDATE matching zero rows raises nothing) and a delete audit entry is
appended unconditionally. -/
def delete_transaction (s : DBState) (actor : Usuario) (tid : Nat) : Except Err DBState :=
  if actor.tipo ≠ .master then .error .permissionDenied
  else
    .ok { s with
      transacciones := s.transacciones.map (marca_eliminada tid),
      historial := s.historial ++
        [⟨actor.username, "delete", "transacciones", tid, some "Eliminada desde interfaz"⟩] }

/-- Embedding of restore_transaction (src/004.py lines 314-323): the UPDATE
clears eliminado on every row with the id and a restore audit entry is
appended; the source performs no role check here. -/
def restore_transaction (s : DBState) (actor : Usuario) (tid : Nat) : Except Err DBState :=
  .ok { s with
    transacciones := s.transacciones.map (marca_restaurada tid),
    historial := s.historial ++
      [⟨actor.username, "restore", "transacciones", tid, some "Restaurada desde papelera"⟩] }

/-- Embedding of permanently_delete_transaction (src/004.py lines 325-335):
DELETE removes every row with the id and a purge audit entry is appended. -/
def permanently_delete_transaction (s : DBState) (actor : Usuario) (tid : Nat) :
    Except Err DBState :=
  .ok { s with
    transacciones := s.transacciones.filter (fun r => !decide (r.id = tid)),
    historial := s.historial ++
      [⟨actor.username, "purge", "transacciones", tid,
        some "Eliminación definitiva desde papelera"⟩] }

/-- Embedding of add_cxc (src/004.py lines 715-742): reject a non-positive
amount or blank client name, then insert with estado defaulted to pendiente
at the registration time ahora.  The due day stands for the already
format-validated fecha_vencimiento. -/
def add_cxc (s : DBState) (cliente : String) (monto : Rat) (moneda : Moneda)
    (vencimiento : Nat) (descripcion : String) (ahora : Fecha) : Except Err DBState :=
  if monto ≤ 0 ∨ strip cliente = "" then .error .validationError
  else
    .ok { s with
      cxc := s.cxc ++
        [⟨s.nextCxcId, strip cliente, monto, moneda, vencimiento, .pendiente,
          strip descripcion, ahora⟩],
      nextCxcId := s.nextCxcId + 1 }

/-- Embedding of add_cxp (src/004.py lines 807-834), identical to add_cxc on
the cuentas_por_pagar table. -/
def add_cxp (s : DBState) (proveedor : String) (monto : Rat) (moneda : Moneda)
    (vencimiento : Nat) (descripcion : String) (ahora : Fecha) : Except Err DBState :=
  if monto ≤ 0 ∨ strip proveedor = "" then .error .validationError
  else
    .ok { s with
      cxp := s.cxp ++
        [⟨s.nextCxpId, strip proveedor, monto, moneda, vencimiento, .pendiente,
          strip descripcion, ahora⟩],
      nextCxpId := s.nextCxpId + 1 }

/-- The row update of UPDATE SET estado = pagada WHERE id = cid. -/
def marca_pagada (cid : Nat) (c : Cuenta) : Cuenta :=
  if c.id = cid then { c with estado := .pagada } else c

/-- Embedding of mark_paid_cxc (src/004.py lines 744-752): the UPDATE sets
estado = pagada on every cuentas_por_cobrar row with the id; an UPDATE
matching zero rows raises nothing, so the call never fails. -/
def mark_paid_cxc (s : DBState) (cid : Nat) : Except Err DBState :=
  .ok { s with cxc := s.cxc.map (marca_pagada cid) }

/-- Embedding of mark_paid_cxp (src/004.py lines 836-844), identical on
cuentas_por_pagar. -/
def mark_paid_cxp (s : DBState) (cid : Nat) : Except Err DBState :=
  .ok { s with cxp := s.cxp.map (marca_pagada cid) }

/-! ## The balance rule of the specification

`balanceSpec` follows the words of the spec (section 4.2): sum of amounts of
active movements with direction in, minus the same with direction out, the
rows optionally filtered by currency, by bank tag, and by creation date at
least sinceDate after calendar-date truncation of the timestamp.  It is the
second definition of a refinement claim: C1 compares each balance query of
the source against it. -/

/-- Whether an active movement passes the optional currency, bank and
since-date filters of the spec. -/
def matchesSpec (m? : Option Moneda) (b? : Option Banco) (d? : Option Nat)
    (r : Transaccion) : Bool :=
  !r.eliminado
    && (match m? with | none => true | some m => decide (r.moneda = m))
    && (match b? with | none => true | some b => decide (r.banco = b))
    && (match d? with | none => true | some d => decide (d ≤ r.fecha.dia))

/-- The balance of the spec: sum of matching in-amounts minus sum of matching
out-amounts. -/
def balanceSpec (rows : List Transaccion) (m? : Option Moneda) (b? : Option Banco)
    (d? : Option Nat) : Rat :=
  sumWhere (fun r => matchesSpec m? b? d? r && decide (r.tipo = .entrada)) rows
    - sumWhere (fun r => matchesSpec m? b? d? r && decide (r.tipo = .salida)) rows

/-! ## Helper lemmas -/

theorem sumWhere_nil (p : Transaccion → Bool) : sumWhere p [] = 0 := rfl

theorem sumWhere_cons (p : Transaccion → Bool) (r : Transaccion) (rows : List Transaccion) :
    sumWhere p (r :: rows) = (if p r then r.monto else 0) + sumWhere p rows := by
  simp [sumWhere]

theorem sumWhere_append (p : Transaccion → Bool) (l1 l2 : List Transaccion) :
    sumWhere p (l1 ++ l2) = sumWhere p l1 + sumWhere p l2 := by
  simp [sumWhere]

theorem signedWhere_nil (p : Transaccion → Bool) : signedWhere p [] = 0 := rfl

theorem signedWhere_cons (p : Transaccion → Bool) (r : Transaccion) (rows : List Transaccion) :
    signedWhere p (r :: rows) =
      (if p r then (match r.tipo with | .entrada => r.monto | .salida => -r.monto) else 0)
        + signedWhere p rows := by
  simp [signedWhere]

theorem signedWhere_append (p : Transaccion → Bool) (l1 l2 : List Transaccion) :
    signedWhere p (l1 ++ l2) = signedWhere p l1 + signedWhere p l2 := by
  simp [signedWhere]

theorem sumWhere_congr {p q : Transaccion → Bool} (rows : List Transaccion)
    (h : ∀ r, p r = q r) : sumWhere p rows = sumWhere q rows := by
  unfold sumWhere
  exact congrArg List.sum (List.map_congr_left (fun r _ => by rw [h r]))

theorem signedWhere_congr {p q : Transaccion → Bool} (rows : List Transaccion)
    (h : ∀ r, p r = q r) : signedWhere p rows = signedWhere q rows := by
  unfold signedWhere
  exact congrArg List.sum (List.map_congr_left (fun r _ => by rw [h r]))

/-- A signed sum splits as in-sum minus out-sum over the same WHERE filter. -/
theorem signedWhere_eq_sub (p : Transaccion → Bool) (rows : List Transaccion) :
    signedWhere p rows =
      sumWhere (fun r => p r && decide (r.tipo = .entrada)) rows
        - sumWhere (fun r => p r && decide (r.tipo = .salida)) rows := by
  induction rows with
  | nil => simp [sumWhere_nil, signedWhere_nil]
  | cons r rs ih =>
    rw [signedWhere_cons, sumWhere_cons, sumWhere_cons, ih]
    cases hp : p r <;> cases ht : r.tipo <;> simp +decide [ht] <;> ring

/-- A filtered sum whose predicate refuses soft-deleted rows is unchanged by
restricting the scan to the active rows. -/
theorem sumWhere_listActive (p : Transaccion → Bool)
    (h : ∀ r, r.eliminado = true → p r = false) (rows : List Transaccion) :
    sumWhere p (listActive rows) = sumWhere p rows := by
  induction rows with
  | nil => rfl
  | cons r rs ih =>
    cases he : r.eliminado
    · simp only [listActive, List.filter_cons] at ih ⊢
      rw [he]
      simp only [Bool.not_false, if_true, sumWhere_cons]
      rw [ih]
    · simp only [listActive, List.filter_cons] at ih ⊢
      rw [he]
      simp only [Bool.not_true, if_false, sumWhere_cons, h r he]
      simp [ih]

/-- C1: every balance query of the source (the per-currency balance of
load_transactions, the since-date comparative balance obtener_balance, and
the per-bank per-currency balance of generate_pdf_report) equals the single
aggregation rule of the spec: sum of amounts of non-soft-deleted movements
with direction in matching the filters, minus the same with direction out;
and soft-deleted movements never contribute, since the spec balance over all
rows equals the one over the active rows only. -/
theorem C1_balance_queries_refine_spec :
    ∀ (rows : List Transaccion) (m : Moneda) (b : Banco) (d : Nat)
      (m? : Option Moneda) (b? : Option Banco) (d? : Option Nat),
      balance_moneda rows m = balanceSpec rows (some m) none none
      ∧ obtener_balance rows m d = balanceSpec rows (some m) none (some d)
      ∧ balance_banco rows m b = balanceSpec rows (some m) (some b) none
      ∧ balanceSpec rows m? b? d? = balanceSpec (listActive rows) m? b? d? := by
  intro rows m b d m? b? d?
  refine ⟨?_, ?_, ?_, ?_⟩
  · unfold balance_moneda balanceSpec
    congr 1 <;>
      · apply sumWhere_congr
        intro r
        simp [matchesSpec, Bool.and_comm, Bool.and_left_comm, Bool.and_assoc]
  · unfold obtener_balance balanceSpec
    rw [signedWhere_eq_sub]
    congr 1 <;>
      · apply sumWhere_congr
        intro r
        simp [matchesSpec, Bool.and_comm, Bool.and_left_comm, Bool.and_assoc]
  · unfold balance_banco balanceSpec
    congr 1 <;>
      · apply sumWhere_congr
        intro r
        simp [matchesSpec, Bool.and_comm, Bool.and_left_comm, Bool.and_assoc]
  · unfold balanceSpec
    congr 1 <;>
      · rw [sumWhere_listActive]
        intro r hr
        simp [matchesSpec, hr]

/-- The signed per-currency total of the PDF report equals the in-minus-out
balance of load_transactions. -/
theorem total_signed_eq_balance (rows : List Transaccion) (m : Moneda) :
    total_signed_moneda rows m = balance_moneda rows m := by
  unfold total_signed_moneda balance_moneda
  rw [signedWhere_eq_sub]
  congr 1 <;>
    · apply sumWhere_congr
      intro r
      simp [Bool.and_comm, Bool.and_left_comm, Bool.and_assoc]

theorem sum_pagadas_append (m : Moneda) (l1 l2 : List Cuenta) :
    sum_pagadas m (l1 ++ l2) = sum_pagadas m l1 + sum_pagadas m l2 := by
  simp [sum_pagadas]

/-- Marking an id paid leaves a table without that id unchanged. -/
theorem map_marca_pagada_fresh (cid : Nat) (l : List Cuenta)
    (h : ∀ c ∈ l, c.id ≠ cid) : l.map (marca_pagada cid) = l := by
  induction l with
  | nil => rfl
  | cons c cs ih =>
    have hc : c.id ≠ cid := h c (List.mem_cons_self c cs)
    simp only [List.map_cons, marca_pagada, if_neg hc]
    rw [ih (fun x hx => h x (List.mem_cons_of_mem c hx))]

/-- The empty database, with all AUTOINCREMENT counters at 1. -/
def vacio : DBState := ⟨[], [], [], [], [], 1, 1, 1, 1⟩

/-- C2: the Balance Total General per currency of the PDF report equals the
ledger balance plus the paid receivables minus the paid payables of that
currency; and recording a receivable of amount 50 in a currency and marking
it paid raises the general balance of that currency by exactly 50 over the
ledger-only balance. -/
theorem C2_general_balance_rule :
    ∀ (s : DBState) (m : Moneda) (cliente descripcion : String) (venc : Nat) (ahora : Fecha),
      balance_general_moneda s m
          = balance_moneda s.transacciones m + sum_pagadas m s.cxc - sum_pagadas m s.cxp
      ∧ ((∀ c ∈ s.cxc, c.id ≠ s.nextCxcId) → strip cliente ≠ "" →
          ∀ s1 s2, add_cxc s cliente 50 m venc descripcion ahora = .ok s1 →
            mark_paid_cxc s1 s.nextCxcId = .ok s2 →
            balance_general_moneda s2 m - balance_moneda s2.transacciones m
              = (balance_general_moneda s m - balance_moneda s.transacciones m) + 50) := by
  intro s m cliente descripcion venc ahora
  constructor
  · unfold balance_general_moneda
    rw [total_signed_eq_balance]
  · intro hfresh hcli s1 s2 hadd hmark
    have h50 : ¬((50 : Rat) ≤ 0 ∨ strip cliente = "") := by
      push_neg
      exact ⟨by norm_num, hcli⟩
    unfold add_cxc at hadd
    rw [if_neg h50] at hadd
    injection hadd with hadd
    unfold mark_paid_cxc at hmark
    injection hmark with hmark
    subst hadd
    subst hmark
    unfold balance_general_moneda total_signed_moneda
    simp only [List.map_append, map_marca_pagada_fresh s.nextCxcId s.cxc hfresh]
    rw [sum_pagadas_append]
    simp [marca_pagada, sum_pagadas]
    ring

/-- The state after recording the receivable of the C2 scenario on the empty
database. -/
def c2s1 : DBState :=
  { vacio with cxc := [⟨1, "Cliente", 50, .bs, 10, .pendiente, "", ⟨5, 0⟩⟩], nextCxcId := 2 }

/-- The state after also marking that receivable paid. -/
def c2s2 : DBState :=
  { c2s1 with cxc := [⟨1, "Cliente", 50, .bs, 10, .pagada, "", ⟨5, 0⟩⟩] }

/-- Witness for C2: the scenario run on the empty database. -/
theorem C2_general_balance_rule_witness :
    balance_general_moneda c2s2 .bs - balance_moneda c2s2.transacciones .bs
      = (balance_general_moneda vacio .bs - balance_moneda vacio.transacciones .bs) + 50 :=
  (C2_general_balance_rule vacio .bs "Cliente" "" 10 ⟨5, 0⟩).2
    (by decide) (by decide) c2s1 c2s2 (by decide) (by decide)

/-- A concrete master user (the stored hash is irrelevant to the ledger
operations). -/
def usuarioMaster : Usuario := ⟨1, "Admin", "Uno", "V1", "admin", "h", .master⟩

/-- A concrete standard (non-master) user. -/
def usuarioEstandar : Usuario := ⟨2, "Es", "Dos", "V2", "es", "h", .estandar⟩

/-- State after recording the digital entrada of 100 Bs at bank ven on the
empty database. -/
def c3s1 : DBState :=
  { vacio with
    transacciones := [⟨1, "admin", .entrada, 100, .bs, .digital, .ven, "", false, ⟨10, 0⟩⟩],
    historial := [⟨"admin", "insert", "transacciones", 1, some ""⟩],
    nextTransId := 2 }

/-- State after also recording the fisico salida of 30 Bs. -/
def c3s2 : DBState :=
  { c3s1 with
    transacciones := c3s1.transacciones ++
      [⟨2, "admin", .salida, 30, .bs, .fisico, .ninguno, "", false, ⟨10, 0⟩⟩],
    historial := c3s1.historial ++ [⟨"admin", "insert", "transacciones", 2, some ""⟩],
    nextTransId := 3 }

/-- C3: recording entrada 100 Bs digital at bank ven and then salida 30 Bs
fisico on the empty ledger gives balance 70 for Bs and bank-filtered balance
100 for ven; and every movement recorded through the fisico channel is stored
with bank tag ninguno, so it changes no bank-filtered aggregate of any bank
other than ninguno (in particular none of the three named banks). -/
theorem C3_scenario_and_fisico_exclusion :
    (∀ s1 s2, add_transaction vacio usuarioMaster .entrada 100 .bs .digital .ven "" 10 = .ok s1 →
        add_transaction s1 usuarioMaster .salida 30 .bs .fisico .ninguno "" 10 = .ok s2 →
        balance_moneda s2.transacciones .bs = 70
          ∧ balance_banco s2.transacciones .bs .ven = 100)
    ∧ (∀ (s : DBState) (u : Usuario) (tp : TipoTrans) (mo : Rat) (mon : Moneda)
        (bSel : Banco) (d : String) (fd : Nat) (s' : DBState),
        add_transaction s u tp mo mon .fisico bSel d fd = .ok s' →
        ∃ r, s'.transacciones = s.transacciones ++ [r] ∧ r.medio = .fisico
          ∧ r.banco = .ninguno
          ∧ ∀ (m2 : Moneda) (b2 : Banco), b2 ≠ .ninguno →
              balance_banco s'.transacciones m2 b2 = balance_banco s.transacciones m2 b2) := by
  constructor
  · intro s1 s2 h1 h2
    have e1 : add_transaction vacio usuarioMaster .entrada 100 .bs .digital .ven "" 10
        = .ok c3s1 := by decide
    rw [e1] at h1
    injection h1 with h1
    subst h1
    have e2 : add_transaction c3s1 usuarioMaster .salida 30 .bs .fisico .ninguno "" 10
        = .ok c3s2 := by decide
    rw [e2] at h2
    injection h2 with h2
    subst h2
    constructor <;>
      simp +decide [balance_moneda, balance_banco, sumWhere, c3s2, c3s1, vacio]
    all_goals norm_num
  · intro s u tp mo mon bSel d fd s' h
    unfold add_transaction at h
    split at h
    · exact absurd h (by simp)
    · injection h with h
      subst h
      refine ⟨_, rfl, rfl, rfl, ?_⟩
      intro m2 b2 hb2
      have hnb : decide (Banco.ninguno = b2) = false :=
        decide_eq_false_iff_not.mpr (Ne.symm hb2)
      unfold balance_banco
      rw [sumWhere_append, sumWhere_append]
      simp only [sumWhere, List.map_cons, List.map_nil, List.sum_cons, List.sum_nil,
        banco_efectivo, hnb, Bool.and_false, if_false]
      ring

/-- Witness for C3: the concrete scenario run end to end. -/
theorem C3_scenario_and_fisico_exclusion_witness :
    balance_moneda c3s2.transacciones .bs = 70
      ∧ balance_banco c3s2.transacciones .bs .ven = 100 :=
  C3_scenario_and_fisico_exclusion.1 c3s1 c3s2 (by decide) (by decide)

theorem marca_eliminada_id (tid : Nat) (r : Transaccion) :
    (marca_eliminada tid r).id = r.id := by
  unfold marca_eliminada
  split <;> rfl

/-- Restore undoes soft-delete on a row that was active. -/
theorem restaurada_tras_eliminada_fila (tid : Nat) (r : Transaccion)
    (he : r.eliminado = false) :
    marca_restaurada tid (marca_eliminada tid r) = r := by
  obtain ⟨rid, rus, rtp, rmo, rmon, rmed, rban, rdes, reli, rfec⟩ := r
  simp at he
  subst he
  by_cases hid : rid = tid <;> simp [marca_eliminada, marca_restaurada, hid]

/-- Restoring after soft-deleting an id whose rows were all active returns
the table to its original contents. -/
theorem restaura_tras_elimina (tid : Nat) (rows : List Transaccion)
    (h : ∀ r ∈ rows, r.id = tid → r.eliminado = false) :
    (rows.map (marca_eliminada tid)).map (marca_restaurada tid) = rows := by
  rw [List.map_map]
  have hpt : ∀ r ∈ rows, (marca_restaurada tid ∘ marca_eliminada tid) r = r := by
    intro r hr
    by_cases hid : r.id = tid
    · exact restaurada_tras_eliminada_fila tid r (h r hr hid)
    · simp [Function.comp, marca_eliminada, marca_restaurada, hid]
  rw [List.map_congr_left hpt]
  simp

/-- After the soft-delete UPDATE, no row with the id is active. -/
theorem eliminada_no_activa (tid : Nat) (rows : List Transaccion) :
    ∀ r ∈ listActive (rows.map (marca_eliminada tid)), r.id ≠ tid := by
  intro r hr
  simp only [listActive, List.mem_filter, List.mem_map] at hr
  obtain ⟨⟨r0, hr0, rfl⟩, hact⟩ := hr
  by_cases hid : r0.id = tid
  · simp [marca_eliminada, hid] at hact
  · simp [marca_eliminada, hid]

/-- A filtered sum whose predicate rejects soft-deleted rows treats the
soft-delete UPDATE like dropping the rows with the id. -/
theorem sumWhere_map_eliminada (tid : Nat) (p : Transaccion → Bool)
    (hp : ∀ r : Transaccion, p { r with eliminado := true } = false)
    (rows : List Transaccion) :
    sumWhere p (rows.map (marca_eliminada tid))
      = sumWhere p (rows.filter (fun r => !decide (r.id = tid))) := by
  induction rows with
  | nil => rfl
  | cons r rs ih =>
    simp only [List.map_cons, List.filter_cons]
    by_cases hid : r.id = tid
    · have h1 : marca_eliminada tid r = { r with eliminado := true } := by
        unfold marca_eliminada
        rw [if_pos hid]
      rw [sumWhere_cons, h1, hp r]
      simp [hid, ih]
    · have h1 : marca_eliminada tid r = r := by
        unfold marca_eliminada
        rw [if_neg hid]
      rw [sumWhere_cons, h1]
      simp [hid, ih, sumWhere_cons]

/-- C4: for a movement id present and active, soft-deleting removes it from
listActive and from the balance (the balance equals the one over the table
with the rows of that id dropped) while the row stays in the full table; a
subsequent restore returns the table to exactly its previous contents, hence
the same active listing and the same value for every balance aggregate; and
the purge removes the row from the full table. -/
theorem C4_softdelete_restore_roundtrip :
    ∀ (s : DBState) (actor : Usuario) (tid : Nat),
      actor.tipo = .master →
      (∃ r ∈ s.transacciones, r.id = tid) →
      (∀ r ∈ s.transacciones, r.id = tid → r.eliminado = false) →
      ∀ s1, delete_transaction s actor tid = .ok s1 →
        (∀ r ∈ listActive s1.transacciones, r.id ≠ tid)
        ∧ (∃ r ∈ s1.transacciones, r.id = tid)
        ∧ (∀ m, balance_moneda s1.transacciones m
            = balance_moneda (s.transacciones.filter (fun r => !decide (r.id = tid))) m)
        ∧ (∀ s2, restore_transaction s1 actor tid = .ok s2 →
            s2.transacciones = s.transacciones
            ∧ listActive s2.transacciones = listActive s.transacciones
            ∧ ∀ (m? : Option Moneda) (b? : Option Banco) (d? : Option Nat),
                balanceSpec s2.transacciones m? b? d? = balanceSpec s.transacciones m? b? d?)
        ∧ (∀ s3, permanently_delete_transaction s1 actor tid = .ok s3 →
            ∀ r ∈ s3.transacciones, r.id ≠ tid) := by
  intro s actor tid hmaster hpres hact s1 hdel
  unfold delete_transaction at hdel
  rw [if_neg (by simp [hmaster])] at hdel
  injection hdel with hdel
  subst hdel
  refine ⟨eliminada_no_activa tid s.transacciones, ?_, ?_, ?_, ?_⟩
  · obtain ⟨r0, hr0, hid0⟩ := hpres
    exact ⟨marca_eliminada tid r0, List.mem_map_of_mem (marca_eliminada tid) hr0,
      by rw [marca_eliminada_id]; exact hid0⟩
  · intro m
    show balance_moneda (s.transacciones.map (marca_eliminada tid)) m = _
    unfold balance_moneda
    rw [sumWhere_map_eliminada tid _ (fun r => by simp),
      sumWhere_map_eliminada tid _ (fun r => by simp)]
  · intro s2 hres
    unfold restore_transaction at hres
    injection hres with hres
    subst hres
    have htr : (s.transacciones.map (marca_eliminada tid)).map (marca_restaurada tid)
        = s.transacciones := restaura_tras_elimina tid s.transacciones hact
    refine ⟨htr, by rw [show (_ : DBState).transacciones = _ from htr], fun m? b? d? => ?_⟩
    rw [show (_ : DBState).transacciones = _ from htr]
  · intro s3 hpurge
    unfold permanently_delete_transaction at hpurge
    injection hpurge with hpurge
    subst hpurge
    intro r hr
    have hr2 := (List.mem_filter.mp hr).2
    simpa using hr2

/-- A concrete active movement used by the C4 witness. -/
def c4row : Transaccion := ⟨1, "admin", .entrada, 100, .bs, .digital, .ven, "", false, ⟨10, 0⟩⟩

/-- A database holding only that movement. -/
def c4s : DBState := { vacio with transacciones := [c4row], nextTransId := 2 }

/-- The same database after soft-deleting movement 1. -/
def c4s1 : DBState :=
  { c4s with
    transacciones := [{ c4row with eliminado := true }],
    historial := [⟨"admin", "delete", "transacciones", 1, some "Eliminada desde interfaz"⟩] }

/-- The same database after then restoring movement 1. -/
def c4s2 : DBState :=
  { c4s1 with
    transacciones := [c4row],
    historial := c4s1.historial ++
      [⟨"admin", "restore", "transacciones", 1, some "Restaurada desde papelera"⟩] }

/-- Witness for C4: soft-delete then restore on the concrete database brings
the transacciones table back to its original contents. -/
theorem C4_softdelete_restore_roundtrip_witness : c4s2.transacciones = c4s.transacciones :=
  ((C4_softdelete_restore_roundtrip c4s usuarioMaster 1 (by decide) (by decide) (by decide)
      c4s1 (by decide)).2.2.2.1 c4s2 (by decide)).1

/-- Counterexample to C5 as stated: with a master actor and an id absent from
the table (the empty table), delete_transaction does not fail with NotFound;
it returns normally, leaving the table unchanged and still appending a delete
audit entry. -/
theorem C5_counterexample_absent_id_no_notfound :
    delete_transaction vacio usuarioMaster 1
        = .ok { vacio with
            historial := [⟨"admin", "delete", "transacciones", 1,
              some "Eliminada desde interfaz"⟩] }
      ∧ delete_transaction vacio usuarioMaster 1 ≠ .error Err.notFound
      ∧ (∀ r ∈ vacio.transacciones, r.id ≠ 1) := by decide

/-- C5 amended: softDelete fails with PermissionDenied when the actor is not
master, leaving the state unchanged; for a master actor it always succeeds,
setting the soft-delete flag on every row with the id, keeping every other
row, and appending a delete audit entry; when the id is absent the table is
unchanged but the audit entry is still appended (the source raises no
NotFound). -/
theorem C5_softdelete_behaviour :
    ∀ (s : DBState) (actor : Usuario) (tid : Nat),
      (actor.tipo ≠ .master → delete_transaction s actor tid = .error .permissionDenied)
      ∧ (actor.tipo = .master →
          ∃ s1, delete_transaction s actor tid = .ok s1
            ∧ s1.transacciones = s.transacciones.map (marca_eliminada tid)
            ∧ (∀ r ∈ s1.transacciones, r.id = tid → r.eliminado = true)
            ∧ (∀ r ∈ s.transacciones, r.id ≠ tid → r ∈ s1.transacciones)
            ∧ s1.historial = s.historial ++
                [⟨actor.username, "delete", "transacciones", tid,
                  some "Eliminada desde interfaz"⟩]
            ∧ ((∀ r ∈ s.transacciones, r.id ≠ tid) →
                s1.transacciones = s.transacciones)) := by
  intro s actor tid
  constructor
  · intro hnm
    unfold delete_transaction
    rw [if_pos hnm]
  · intro hm
    refine ⟨{ s with
        transacciones := s.transacciones.map (marca_eliminada tid),
        historial := s.historial ++
          [⟨actor.username, "delete", "transacciones", tid,
            some "Eliminada desde interfaz"⟩] }, ?_, rfl, ?_, ?_, rfl, ?_⟩
    · unfold delete_transaction
      rw [if_neg (by simp [hm])]
    · intro r hr hid
      simp only [List.mem_map] at hr
      obtain ⟨r0, hr0, rfl⟩ := hr
      by_cases h0 : r0.id = tid
      · simp [marca_eliminada, h0]
      · rw [show marca_eliminada tid r0 = r0 from by unfold marca_eliminada; rw [if_neg h0]]
          at hid ⊢
        exact absurd hid h0
    · intro r hr hid
      have hkeep : marca_eliminada tid r = r := by
        unfold marca_eliminada
        rw [if_neg hid]
      rw [← hkeep]
      exact List.mem_map_of_mem (marca_eliminada tid) hr
    · intro habs
      have hpt : ∀ r ∈ s.transacciones, marca_eliminada tid r = r := fun r hr => by
        unfold marca_eliminada
        rw [if_neg (habs r hr)]
      rw [List.map_congr_left hpt]
      simp

/-- Witness for C5 amended: a standard user is refused with PermissionDenied. -/
theorem C5_softdelete_behaviour_witness :
    delete_transaction vacio usuarioEstandar 1 = .error .permissionDenied :=
  (C5_softdelete_behaviour vacio usuarioEstandar 1).1 (by decide)

/-- A store already holding a user named bob, for the C6 counterexample. -/
def c6s : DBState :=
  { vacio with usuarios := [⟨1, "Bob", "B", "V9", "bob", "x", .estandar⟩], nextUserId := 2 }

/-- Counterexample to C6 as stated: the username bob already exists, yet a
registration with a blank first name and that username fails with
ValidationError, not DuplicateKey, because the blank-field check runs first. -/
theorem C6_counterexample_validation_precedes_duplicate :
    (get_user c6s "bob").isSome
      ∧ register_user c6s "" "X" "V8" "bob" "12345" .estandar = .error Err.validationError
      ∧ register_user c6s "" "X" "V8" "bob" "12345" .estandar ≠ .error Err.duplicateKey := by
  decide

/-- C6 amended: register first fails with ValidationError when any stripped
required field is blank or the password is shorter than 4 characters; only
otherwise does an existing username, or a national-id colliding with the
UNIQUE constraint, fail with DuplicateKey (the existing rows stay unchanged,
since the call returns without inserting); otherwise it persists one new row
whose stored password is the hex-encoded SHA-256 of the UTF-8 bytes of the
supplied password. -/
theorem C6_register_behaviour :
    ∀ (s : DBState) (n a c u p : String) (t : RolUsuario),
      (((strip n = "" ∨ strip a = "" ∨ strip c = "" ∨ strip u = "" ∨ p = "") ∨ p.length < 4) →
          register_user s n a c u p t = .error .validationError)
      ∧ (¬(strip n = "" ∨ strip a = "" ∨ strip c = "" ∨ strip u = "" ∨ p = "") →
          ¬(p.length < 4) →
          (get_user s (strip u)).isSome →
          register_user s n a c u p t = .error .duplicateKey)
      ∧ (¬(strip n = "" ∨ strip a = "" ∨ strip c = "" ∨ strip u = "" ∨ p = "") →
          ¬(p.length < 4) →
          (get_user s (strip u)).isSome = false →
          s.usuarios.any (fun x => decide (x.cedula = strip c)) = true →
          register_user s n a c u p t = .error .duplicateKey)
      ∧ (¬(strip n = "" ∨ strip a = "" ∨ strip c = "" ∨ strip u = "" ∨ p = "") →
          ¬(p.length < 4) →
          (get_user s (strip u)).isSome = false →
          s.usuarios.any (fun x => decide (x.cedula = strip c)) = false →
          register_user s n a c u p t
              = .ok { s with
                  usuarios := s.usuarios ++
                    [⟨s.nextUserId, strip n, strip a, strip c, strip u,
                      hash_password p, t⟩],
                  nextUserId := s.nextUserId + 1 }
            ∧ hash_password p = digestHex (sha256Words (utf8Bytes p))) := by
  intro s n a c u p t
  refine ⟨?_, ?_, ?_, ?_⟩
  · intro h
    unfold register_user
    by_cases hb1 : (strip n = "" ∨ strip a = "" ∨ strip c = "" ∨ strip u = "" ∨ p = "")
    · rw [if_pos hb1]
    · rw [if_neg hb1, if_pos (h.resolve_left hb1)]
  · intro h1 h2 h3
    unfold register_user
    rw [if_neg h1, if_neg h2, if_pos h3]
  · intro h1 h2 h3 h4
    unfold register_user
    rw [if_neg h1, if_neg h2, if_neg (by simp [h3]), if_pos (by exact h4)]
  · intro h1 h2 h3 h4
    unfold register_user
    rw [if_neg h1, if_neg h2, if_neg (by simp [h3]), if_neg (by simp [h4])]
    exact ⟨rfl, rfl⟩

/-- Witness for C6 amended: a valid registration on the empty store persists
the row with the hashed password. -/
theorem C6_register_behaviour_witness :
    register_user vacio "Ana" "A" "V1" "ana" "1234" .master
      = .ok { vacio with
          usuarios := [⟨1, strip "Ana", strip "A", strip "V1", strip "ana",
            hash_password "1234", .master⟩],
          nextUserId := 2 } :=
  ((C6_register_behaviour vacio "Ana" "A" "V1" "ana" "1234" .master).2.2.2
    (by decide) (by decide) (by decide) (by decide)).1

/-- Counterexample to C7 as stated: with no obligation of id 1 in either
table, markPaid does not fail with NotFound on either table; it returns the
store unchanged. -/
theorem C7_counterexample_absent_id_no_notfound :
    mark_paid_cxc vacio 1 = .ok vacio
      ∧ mark_paid_cxc vacio 1 ≠ .error Err.notFound
      ∧ mark_paid_cxp vacio 1 = .ok vacio
      ∧ mark_paid_cxp vacio 1 ≠ .error Err.notFound
      ∧ vacio.cxc = [] ∧ vacio.cxp = [] := by decide

/-- C7 amended: markPaid(id) never fails; when no obligation with that id
exists the UPDATE matches zero rows and the whole store is returned
unchanged (no NotFound error is raised). -/
theorem C7_markpaid_absent_is_noop :
    ∀ (s : DBState) (cid : Nat),
      ((∀ c ∈ s.cxc, c.id ≠ cid) → mark_paid_cxc s cid = .ok s)
      ∧ ((∀ c ∈ s.cxp, c.id ≠ cid) → mark_paid_cxp s cid = .ok s) := by
  intro s cid
  constructor
  · intro h
    unfold mark_paid_cxc
    rw [map_marca_pagada_fresh cid s.cxc h]
  · intro h
    unfold mark_paid_cxp
    rw [map_marca_pagada_fresh cid s.cxp h]

/-- Witness for C7 amended: markPaid of the absent id 1 on the empty store. -/
theorem C7_markpaid_absent_is_noop_witness : mark_paid_cxc vacio 1 = .ok vacio :=
  (C7_markpaid_absent_is_noop vacio 1).1 (by decide)

/-- The pagada UPDATE is idempotent on one row. -/
theorem marca_pagada_idem (cid : Nat) (c : Cuenta) :
    marca_pagada cid (marca_pagada cid c) = marca_pagada cid c := by
  obtain ⟨ci, cc, cm, cmo, cv, ce, cd, cf⟩ := c
  by_cases h : ci = cid <;> simp [marca_pagada, h]

/-- The pagada UPDATE is idempotent on the whole table. -/
theorem map_marca_pagada_idem (cid : Nat) (l : List Cuenta) :
    (l.map (marca_pagada cid)).map (marca_pagada cid) = l.map (marca_pagada cid) := by
  rw [List.map_map]
  exact List.map_congr_left (fun c _ => marca_pagada_idem cid c)

/-- C8: for an obligation id present in the store, marking it paid twice
yields exactly the persisted state of marking it once, on both obligation
tables: the second call returns its input state unchanged. -/
theorem C8_markpaid_idempotent :
    ∀ (s : DBState) (cid : Nat),
      ((∃ c ∈ s.cxc, c.id = cid) ∨ (∃ c ∈ s.cxp, c.id = cid)) →
      (∀ s1, mark_paid_cxc s cid = .ok s1 → mark_paid_cxc s1 cid = .ok s1)
      ∧ (∀ s1, mark_paid_cxp s cid = .ok s1 → mark_paid_cxp s1 cid = .ok s1) := by
  intro s cid _
  constructor
  · intro s1 h1
    unfold mark_paid_cxc at h1 ⊢
    injection h1 with h1
    subst h1
    simp only [map_marca_pagada_idem]
  · intro s1 h1
    unfold mark_paid_cxp at h1 ⊢
    injection h1 with h1
    subst h1
    simp only [map_marca_pagada_idem]

/-- A store with one pending receivable of id 1, for the C8 witness. -/
def c8s : DBState :=
  { vacio with cxc := [⟨1, "C", 50, .bs, 10, .pendiente, "", ⟨5, 0⟩⟩], nextCxcId := 2 }

/-- The same store after marking receivable 1 paid. -/
def c8s1 : DBState :=
  { c8s with cxc := [⟨1, "C", 50, .bs, 10, .pagada, "", ⟨5, 0⟩⟩] }

/-- Witness for C8: marking the already-paid receivable 1 paid again returns
the same persisted state. -/
theorem C8_markpaid_idempotent_witness : mark_paid_cxc c8s1 1 = .ok c8s1 :=
  (C8_markpaid_idempotent c8s 1 (Or.inl (by decide))).1 c8s1 (by decide)

/-- The stored user record of the C9 scenario. -/
def c9u : Usuario := ⟨1, "Alice", "A", "V1", "alice", hash_password "test", .master⟩

/-- A credential store holding only that user. -/
def c9s : DBState := { vacio with usuarios := [c9u], nextUserId := 2 }

/-- Counterexample to C9 as stated: with a blank username (an unknown
username: no stored row has an empty username), login fails with the
missing-fields warning, not with InvalidCredentials. -/
theorem C9_counterexample_blank_not_invalidcredentials :
    login c9s "" "pw" = .error Err.validationError
      ∧ login c9s "" "pw" ≠ .error Err.invalidCredentials
      ∧ (∀ u ∈ c9s.usuarios, u.username ≠ "") := by decide

/-- C9 amended: when the stripped username or the password is blank, login
fails with the missing-fields warning; otherwise it returns the stored user
record exactly when a row with the stripped username exists and its stored
hash equals the hex SHA-256 of the supplied password, and fails with
InvalidCredentials in every other case.  login never modifies the store. -/
theorem C9_authenticate_behaviour :
    ∀ (s : DBState) (usernameRaw password : String),
      ((strip usernameRaw = "" ∨ password = "") →
          login s usernameRaw password = .error .validationError)
      ∧ (∀ u, login s usernameRaw password = .ok u ↔
          (strip usernameRaw ≠ "" ∧ password ≠ ""
            ∧ get_user s (strip usernameRaw) = some u
            ∧ u.password = hash_password password))
      ∧ ((strip usernameRaw ≠ "" ∧ password ≠ ""
            ∧ (∀ u, get_user s (strip usernameRaw) = some u →
                u.password ≠ hash_password password)) →
          login s usernameRaw password = .error .invalidCredentials) := by
  intro s ur pw
  refine ⟨?_, ?_, ?_⟩
  · intro h
    unfold login
    rw [if_pos h]
  · intro u
    constructor
    · intro h
      unfold login at h
      split at h
      · exact absurd h (by simp)
      · rename_i he
        push_neg at he
        split at h
        · exact absurd h (by simp)
        · rename_i u0 hg
          split at h
          · rename_i hc
            unfold check_password at hc
            injection h with h
            subst h
            exact ⟨he.1, he.2, hg, (beq_iff_eq.mp hc).symm⟩
          · exact absurd h (by simp)
    · rintro ⟨h1, h2, hg, hp⟩
      unfold login
      rw [if_neg (by push_neg; exact ⟨h1, h2⟩), hg]
      simp [check_password, hp]
  · rintro ⟨h1, h2, hnone⟩
    unfold login
    rw [if_neg (by push_neg; exact ⟨h1, h2⟩)]
    rcases hg : get_user s (strip ur) with _ | u0
    · rfl
    · have hne := hnone u0 hg
      have hc : check_password pw u0.password = false := by
        unfold check_password
        exact beq_eq_false_iff_ne.mpr (Ne.symm hne)
      simp [hc]

/-- Witness for C9 amended: logging in with the right password returns the
stored record. -/
theorem C9_authenticate_behaviour_witness : login c9s "alice" "test" = .ok c9u :=
  ((C9_authenticate_behaviour c9s "alice" "test").2.1 c9u).mpr
    ⟨by decide, by decide, by decide, rfl⟩

/-- The signed net contribution of the active movements carrying the ninguno
bank tag (every fisico-channel movement) in a currency. -/
def neto_ninguno (rows : List Transaccion) (m : Moneda) : Rat :=
  signedWhere (fun r => !r.eliminado && decide (r.moneda = m)
    && decide (r.banco = .ninguno)) rows

theorem total_moneda_bancos_eq (rows : List Transaccion) (m : Moneda) :
    total_moneda_bancos rows m = balance_banco rows m .ven + balance_banco rows m .mercantil
      + balance_banco rows m .banesco := by
  simp [total_moneda_bancos]
  ring

/-- A filtered sum splits over the four bank tags. -/
theorem sumWhere_banco_split (p : Transaccion → Bool) (rows : List Transaccion) :
    sumWhere p rows = sumWhere (fun r => p r && decide (r.banco = .ninguno)) rows
      + sumWhere (fun r => p r && decide (r.banco = .ven)) rows
      + sumWhere (fun r => p r && decide (r.banco = .mercantil)) rows
      + sumWhere (fun r => p r && decide (r.banco = .banesco)) rows := by
  induction rows with
  | nil => simp [sumWhere_nil]
  | cons r rs ih =>
    rw [sumWhere_cons, sumWhere_cons, sumWhere_cons, sumWhere_cons, sumWhere_cons, ih]
    cases hp : p r <;> cases hb : r.banco <;> simp +decide [hb] <;> ring

/-- C10 amended: the per-currency total of the bank section of the PDF report
is the sum of the per-bank balances over only the three named banks, which
equals the overall ledger balance minus the net contribution of the active
ninguno-tagged (cash-channel) movements of that currency; consequently the
total differs from the overall ledger balance exactly when that net
contribution is nonzero (one nonzero-amount ninguno movement alone does not
force a difference, since contributions can cancel). -/
theorem C10_bank_section_total_vs_ledger :
    ∀ (rows : List Transaccion) (m : Moneda),
      total_moneda_bancos rows m = balance_moneda rows m - neto_ninguno rows m
      ∧ (total_moneda_bancos rows m ≠ balance_moneda rows m ↔ neto_ninguno rows m ≠ 0) := by
  intro rows m
  have h1 : total_moneda_bancos rows m = balance_moneda rows m - neto_ninguno rows m := by
    have hE := sumWhere_banco_split
      (fun r => decide (r.tipo = TipoTrans.entrada) && !r.eliminado
        && decide (r.moneda = m)) rows
    have hS := sumWhere_banco_split
      (fun r => decide (r.tipo = TipoTrans.salida) && !r.eliminado
        && decide (r.moneda = m)) rows
    have e1 : sumWhere (fun r => (!r.eliminado && decide (r.moneda = m)
          && decide (r.banco = Banco.ninguno)) && decide (r.tipo = TipoTrans.entrada)) rows
        = sumWhere (fun r => (decide (r.tipo = TipoTrans.entrada) && !r.eliminado
          && decide (r.moneda = m)) && decide (r.banco = Banco.ninguno)) rows :=
      sumWhere_congr rows (fun r => by
        simp [Bool.and_comm, Bool.and_left_comm, Bool.and_assoc])
    have e2 : sumWhere (fun r => (!r.eliminado && decide (r.moneda = m)
          && decide (r.banco = Banco.ninguno)) && decide (r.tipo = TipoTrans.salida)) rows
        = sumWhere (fun r => (decide (r.tipo = TipoTrans.salida) && !r.eliminado
          && decide (r.moneda = m)) && decide (r.banco = Banco.ninguno)) rows :=
      sumWhere_congr rows (fun r => by
        simp [Bool.and_comm, Bool.and_left_comm, Bool.and_assoc])
    rw [total_moneda_bancos_eq]
    unfold balance_banco balance_moneda neto_ninguno
    rw [signedWhere_eq_sub, hE, hS, e1, e2]
    ring
  refine ⟨h1, ?_⟩
  rw [h1, Ne, Ne, sub_eq_self]

/-- Two active ninguno-tagged movements of nonzero amount that cancel. -/
def c10rows : List Transaccion :=
  [⟨1, "admin", .entrada, 100, .bs, .fisico, .ninguno, "", false, ⟨10, 0⟩⟩,
   ⟨2, "admin", .salida, 100, .bs, .fisico, .ninguno, "", false, ⟨10, 0⟩⟩]

/-- Counterexample to C10 as stated: this state holds an active
ninguno-tagged movement of nonzero amount in Bs, yet the per-currency total
of the bank section equals the overall ledger balance, because the two
ninguno contributions cancel. -/
theorem C10_counterexample_cancelling_ninguno :
    (∃ r ∈ c10rows, r.eliminado = false ∧ r.banco = .ninguno ∧ r.moneda = .bs ∧ r.monto ≠ 0)
      ∧ total_moneda_bancos c10rows .bs = balance_moneda c10rows .bs := by
  constructor
  · decide
  · simp +decide [total_moneda_bancos, balance_banco, balance_moneda, sumWhere, c10rows]

/-- One active ninguno movement with no counterweight. -/
def c10single : List Transaccion :=
  [⟨1, "admin", .entrada, 100, .bs, .fisico, .ninguno, "", false, ⟨10, 0⟩⟩]

/-- Witness for C10 amended: with a nonzero ninguno net, the bank-section
total really differs from the ledger balance. -/
theorem C10_bank_section_total_vs_ledger_witness :
    total_moneda_bancos c10single .bs ≠ balance_moneda c10single .bs :=
  ((C10_bank_section_total_vs_ledger c10single .bs).2).mpr (by
    simp +decide [neto_ninguno, signedWhere, c10single])
